import Mathlib

/-!
Verification of `callback.cpp`, an example of the Phoenix users manual.

Shallow embedding of `libs/spirit/phoenix/example/users_manual/callback.cpp`:

```
template <typename F>
void print(F f) { cout << f() << endl; }

int main() { print(val(3)); print(val("Hello World")); return 0; }
```

The program state is made explicit.  Standard output is the text written to it so
far; everything else a run can look at (command line, environment, standard input)
or that a callable can change is carried next to it.  A callable is handed the
whole state, the stream included: `cout` is a global, so the body of `f()` may
write to it before `print` inserts the result.
-/

namespace Callback

/-- The part of a process that `main` could read: command-line arguments,
environment variables and the content of standard input. -/
structure Inputs where
  args : List String
  env : List (String × String)
  stdin : String

/-- Program state seen by `print` and by the callable it is given: the state `σ`
next to the stream, and the text written to `cout` so far. -/
structure World (σ : Type) where
  state : σ
  stdout : String

/-- Types that `cout << x` accepts, with the characters the insertion writes. -/
class Printable (α : Type) where
  text : α → String

/-- Insertion `cout << n` of an `int` with the default stream flags: the decimal numeral, with a
leading minus sign for a negative number. -/
instance : Printable Int where
  text n := toString n

/-- Insertion `cout << s` of a `const char*`: the characters of the string. -/
instance : Printable String where
  text s := s

/-- The template parameter `F` of `print`: a type with a zero-argument call
operator `f()` returning an `α`.  Effects of the call are explicit: the call maps
the program state before, standard output included, to the result and the program
state after. -/
class Callable (F : Type) (σ : Type) (α : outParam Type) where
  call : F → World σ → α × World σ

/-- Callables whose effects stay within the explicit state `σ`: the call maps the
state before to the result and the state after, and has no access to `cout`. -/
class StateCallable (F : Type) (σ : Type) (α : outParam Type) where
  call : F → σ → α × σ

/-- A callable confined to the explicit state is a callable: called in a program
state, it acts on the state part and leaves standard output as it is. -/
instance {F σ α : Type} [StateCallable F σ α] : Callable F σ α where
  call f w :=
    let r := StateCallable.call f w.state
    (r.1, { state := r.2, stdout := w.stdout })

/-- Modelled from the spec: the object returned by `val` of
`boost/spirit/include/phoenix_core.hpp`, which is not part of the sources at hand.
The spec calls it "a deferred-evaluation value holder", "a function object that
returns a literal when called". -/
structure Deferred (α : Type) where
  held : α

/-- Modelled from the spec: `val` of `boost/spirit/include/phoenix_core.hpp`
(absent from the sources at hand), "a lazily-evaluated callable wrapper that
returns a constant value": it stores its argument for a later call. -/
def val {α : Type} (v : α) : Deferred α :=
  ⟨v⟩

/-- Modelled from the spec: the call operator of the holder built by `val`
(absent from the sources at hand); calling it "returns a literal" and touches
nothing else ("no state"). -/
instance {α σ : Type} : StateCallable (Deferred α) σ α where
  call d s := (d.held, s)

/-- An ordinary zero-argument closure `[] { return v; }`. -/
instance {α σ : Type} : StateCallable (Unit → α) σ α where
  call g s := (g (), s)

/-- A callable with side effects on the explicit state `σ`. -/
structure Effectful (σ α : Type) where
  run : σ → α × σ

/-- Calling an effectful callable runs it on the current state. -/
instance {α σ : Type} : StateCallable (Effectful σ α) σ α where
  call f s := f.run s

/-- A closure with the whole program state in reach, `cout` included, such as
`[] { cout << "x"; return 1; }`. -/
structure Closure (σ α : Type) where
  run : World σ → α × World σ

/-- Calling a closure runs its body on the current program state. -/
instance {α σ : Type} : Callable (Closure σ α) σ α where
  call f w := f.run w

/-- A callable instrumented with an invocation counter kept in the state. -/
structure Counted (F : Type) where
  inner : F

/-- Each call of a counted callable performs one call of the wrapped callable and
adds one to the counter. -/
instance {F σ α : Type} [StateCallable F σ α] :
    StateCallable (Counted F) (σ × Nat) α where
  call c st :=
    let r := StateCallable.call c.inner st.1
    (r.1, (r.2, st.2 + 1))

/-- The manipulator `std::endl` as far as the text goes: one line terminator (the flush changes
no character of the output). -/
def endl : String := "\n"

/-- Source: `template <typename F> void print(F f) { cout << f() << endl; }`.
The operand `f()` is evaluated first, in the current program state; its result is
then inserted into `cout` as the call left it, and `endl` after it. -/
def print {F σ α : Type} [Callable F σ α] [Printable α] (f : F) (w : World σ) : World σ :=
  let r := Callable.call f w
  { state := r.2.state, stdout := r.2.stdout ++ Printable.text r.1 ++ endl }

/-- Source: `int main() { print(val(3)); print(val("Hello World")); return 0; }`.
The result is the final state together with the exit status. -/
def main (w : World Inputs) : World Inputs × Int :=
  let w1 := print (val (3 : Int)) w
  let w2 := print (val "Hello World") w1
  (w2, 0)

/-- The text a step wrote: what `after` holds beyond the length of `before`. -/
def written (before after : String) : String :=
  ⟨after.data.drop before.data.length⟩

/-- A sample stateful callable: returns the number held in the state and
advances it, like `[&n] { return n++; }`. -/
def nextTicket : Effectful Int Int :=
  ⟨fun n => (n, n + 1)⟩

/-- A sample closure that writes to `cout` itself before it returns:
`[] { cout << "x"; return 1; }`. -/
def noisyOne : Closure Unit Int :=
  ⟨fun w => (1, { state := w.state, stdout := w.stdout ++ "x" })⟩

/-! Helper facts. -/

theorem written_append (s t : String) : written s (s ++ t) = t := by
  apply String.ext
  simp [written]

theorem print_stdout {F σ α : Type} [Callable F σ α] [Printable α] (f : F) (w : World σ) :
    (print f w).stdout
      = (Callable.call f w).2.stdout ++ Printable.text (Callable.call f w).1 ++ "\n" :=
  rfl

theorem print_state {F σ α : Type} [Callable F σ α] [Printable α] (f : F) (w : World σ) :
    (print f w).state = (Callable.call f w).2.state :=
  rfl

theorem call_of_stateCallable {F σ α : Type} [StateCallable F σ α] (f : F) (w : World σ) :
    Callable.call f w
      = ((StateCallable.call f w.state).1, ⟨(StateCallable.call f w.state).2, w.stdout⟩) :=
  rfl

theorem main_stdout (w : World Inputs) :
    (main w).1.stdout = w.stdout ++ "3\nHello World\n" := by
  apply String.ext
  simp [main, print, val, Callable.call, StateCallable.call, Printable.text, endl]
  decide

theorem main_state (w : World Inputs) : (main w).1.state = w.state :=
  rfl

theorem main_run_sample :
    (main ⟨⟨["callback", "-v"], [("HOME", "/root")], "typed\n"⟩, "$ "⟩).1.stdout
      = "$ 3\nHello World\n" := by
  decide

theorem print_nextTicket_sample :
    print nextTicket (⟨41, "no. "⟩ : World Int) = ⟨42, "no. 41\n"⟩ := by
  rfl

/-! The claims. -/

/-- C1: run from an empty standard output, whatever the command line, environment
and standard input, `main` leaves standard output equal to exactly
`"3\nHello World\n"`: the numeral 3 and the text Hello World, each followed by one
line break, in that order and with nothing else. -/
theorem main_output_from_empty (i : Inputs) :
    (main ⟨i, ""⟩).1.stdout = "3\nHello World\n" :=
  rfl

/-- C3: for every value `v`, calling `val v` returns `v` itself and changes
nothing, neither the state nor standard output, so `print (val v)` and `print` of the constant closure `fun () => v`
end in the same state, with standard output `s` followed by the text of `v` and a
line terminator. -/
theorem val_same_as_constant_closure {α σ : Type} [Printable α]
    (v : α) (st : σ) (s : String) :
    StateCallable.call (val v) st = (v, st)
      ∧ Callable.call (val v) (⟨st, s⟩ : World σ) = (v, ⟨st, s⟩)
      ∧ print (val v) ⟨st, s⟩ = print (fun (_ : Unit) => v) ⟨st, s⟩
      ∧ (print (val v) ⟨st, s⟩).stdout = s ++ Printable.text v ++ "\n"
      ∧ (print (fun (_ : Unit) => v) ⟨st, s⟩).stdout = s ++ Printable.text v ++ "\n" :=
  ⟨rfl, rfl, rfl, rfl, rfl⟩

/-- C4: `main` has no failure path: from every state it performs both `print`
calls, in order, and returns exit status 0; a non-zero status is not reachable. -/
theorem main_completes_with_status_zero (w : World Inputs) :
    (main w).2 = 0
      ∧ (main w).1 = print (val "Hello World") (print (val (3 : Int)) w)
      ∧ ¬ ∃ w0 : World Inputs, (main w0).2 ≠ 0 := by
  refine ⟨rfl, rfl, ?_⟩
  rintro ⟨w0, h⟩
  exact h rfl

/-- C5: the text `main` appends to standard output and the status it returns are
the same for any two runs, whatever their command-line arguments, environment,
standard input and prior output; each run keeps its prior output in front of the
appended text and leaves the inputs as they were. -/
theorem main_independent_of_inputs (w₁ w₂ : World Inputs) :
    written w₁.stdout (main w₁).1.stdout = written w₂.stdout (main w₂).1.stdout
      ∧ (main w₁).2 = (main w₂).2
      ∧ (main w₁).1.stdout = w₁.stdout ++ written w₁.stdout (main w₁).1.stdout
      ∧ (main w₂).1.stdout = w₂.stdout ++ written w₂.stdout (main w₂).1.stdout
      ∧ (main w₁).1.state = w₁.state ∧ (main w₂).1.state = w₂.state := by
  have h₁ := main_stdout w₁
  have h₂ := main_stdout w₂
  refine ⟨?_, rfl, ?_, ?_, rfl, rfl⟩
  · rw [h₁, h₂, written_append, written_append]
  · rw [h₁, written_append]
  · rw [h₂, written_append]

/-- C6: `print f` calls `f` exactly once: for every callable acting on explicit
state, with an invocation counter `n` kept in the state, the counter after `print` is `n + 1`, the rest of the state is the one
left by a single call of `f` from the state before, and the value written is the
result of that call. -/
theorem print_invokes_exactly_once {F σ α : Type} [StateCallable F σ α] [Printable α]
    (f : F) (st : σ) (n : Nat) (s : String) :
    (print (Counted.mk f) ⟨(st, n), s⟩).state.2 = n + 1
      ∧ (print (Counted.mk f) ⟨(st, n), s⟩).state.1 = (StateCallable.call f st).2
      ∧ (print (Counted.mk f) ⟨(st, n), s⟩).stdout
          = s ++ Printable.text (StateCallable.call f st).1 ++ "\n" :=
  ⟨rfl, rfl, rfl⟩

end Callback
